import Mathlib

/-! Book catalogue browser (scripts.js): shallow embedding and verified properties

The script keeps two module variables (MATCHES, PAGE), a document fragment, the
colour table CSS and a handful of DOM cells.  Every handler is embedded as a
function on an explicit `State`; what the script imports from data.js or asks
of the browser is collected in `Env`.
-/

namespace BookConnect

/-! ## Values and strings -/

/-- One record of the `books` array of data.js. -/
structure Book where
  id : String
  title : String
  author : String
  image : String
  description : String
  published : String
  genres : List String
deriving DecidableEq, Repr

/-- The JavaScript values the import `books` may hold when the module is loaded. -/
inductive JSValue where
  | undefined
  | null
  | boolean (b : Bool)
  | number (n : Int)
  | nan
  | string (s : String)
  | function
  | object
  | array (items : List Book)
deriving DecidableEq, Repr

namespace JSValue

/-- ToBoolean: what `!v` negates. -/
def truthy : JSValue → Bool
  | undefined => false
  | null => false
  | boolean b => b
  | number n => decide (n ≠ 0)
  | nan => false
  | string s => decide (s ≠ "")
  | function => true
  | object => true
  | array _ => true

/-- The builtin `Array.isArray`. -/
def isArray : JSValue → Bool
  | array _ => true
  | _ => false

end JSValue

/-- Number of UTF-16 code units of a string, the value of its `length` property. -/
def utf16Length (s : String) : Nat :=
  (s.data.map (fun c => if c.val.toNat < 65536 then 1 else 2)).sum

/-- The test `books.length < 2`: reading `length` of undefined or null throws, a
value without a `length` property gives undefined, and `undefined < 2` is false. -/
def lengthLessThanTwo : JSValue → Except String Bool
  | .undefined => .error "TypeError: Cannot read properties of undefined"
  | .null => .error "TypeError: Cannot read properties of null"
  | .string s => .ok (decide (utf16Length s < 2))
  | .array items => .ok (decide (items.length < 2))
  | _ => .ok false

/-- Lines 9-10: the validation of the import, run once when the module loads. -/
def validation (books : JSValue) : Except String Unit :=
  if (!books.truthy && !books.isArray) then .error "Source required"
  else
    match (if !books.truthy then lengthLessThanTwo books else .ok false) with
    | .error err => .error err
    | .ok true => .error "Range must be an array with two numbers"
    | .ok false => .ok ()

/-- White space and line terminators of ECMAScript, the characters `trim` strips. -/
def isTrimChar (c : Char) : Bool :=
  let n := c.val.toNat
  [9, 10, 11, 12, 13, 32, 160, 5760, 8232, 8233, 8239, 8287, 12288, 65279].contains n
    || (decide (8192 ≤ n) && decide (n ≤ 8202))

/-- The builtin `String.prototype.trim`. -/
def jsTrim (s : String) : String :=
  ⟨((s.data.dropWhile isTrimChar).reverse.dropWhile isTrimChar).reverse⟩

/-- Does the list `t` open the list `s`. -/
def startsWithList : List Char → List Char → Bool
  | _, [] => true
  | [], _ :: _ => false
  | c :: s, d :: t => decide (c = d) && startsWithList s t

/-- Substring search over character lists: some position of `s` starts with `t`. -/
def includesList : List Char → List Char → Bool
  | [], t => startsWithList [] t
  | c :: s, t => startsWithList (c :: s) t || includesList s t

/-- The builtin `String.prototype.includes`. -/
def includes (s t : String) : Bool := includesList s.data t.data

/-- The builtin `Array.prototype.slice` at non-negative integer bounds. -/
def slice {α : Type} (xs : List α) (start stop : Nat) : List α :=
  (xs.drop start).take (stop - start)

/-! ## Environment and state -/

/-- The object `window.matchMedia(query)` returns; `matches_` is its property `matches`. -/
structure MediaQueryList where
  matches_ : Bool
  media : String

/-- Property read on a MediaQueryList; a name it does not carry gives undefined. -/
def MediaQueryList.getProp (m : MediaQueryList) (name : String) : JSValue :=
  if name = "matches" then .boolean m.matches_
  else if name = "media" then .string m.media
  else .undefined

/-- The search form's three named fields, as `Object.fromEntries(formData)` reads them. -/
structure Filters where
  title : String
  author : String
  genre : String
deriving DecidableEq, Repr

/-- What the script takes from outside itself: the imports of data.js, the
builtin `toLowerCase` (its Unicode case tables are the host's), `window.matchMedia`
(absent in a browser without it), the year `new Date(published).getFullYear()`
prints, and the default values the markup gives the search form. -/
structure Env where
  BOOKS_PER_PAGE : Nat
  authors : String → Option String
  books : List Book
  toLowerCase : String → String
  matchMedia : Option (String → MediaQueryList)
  fullYear : String → String
  formDefaults : Filters

/-- The button element `createPreview` builds. -/
structure Preview where
  dataPreview : String
  image : String
  title : String
  author : String
deriving DecidableEq, Repr

/-- Module variables and the DOM cells the handlers read or write.  A dialog is its
`open` flag, an input or select the string its `value` holds (`settingsTheme`,
`searchForm`), the message banner the presence of its class list__message_show,
the button its `disabled` flag and the count printed in it, the two colours the
custom properties --color-dark and --color-light of the document element. -/
structure State where
  MATCHES : List Book
  PAGE : Nat
  FRAGMENT : List Preview
  cssCurrent : String
  colorDark : String
  colorLight : String
  listItems : List Preview
  listMessageShow : Bool
  buttonDisabled : Bool
  buttonRemaining : Int
  listActiveOpen : Bool
  listBlur : String
  listImage : String
  listTitle : String
  listSubtitle : String
  listDescription : String
  searchOpen : Bool
  searchForm : Filters
  searchTitleFocused : Bool
  settingsOpen : Bool
  settingsTheme : String
  scrollTop : Nat
deriving DecidableEq, Repr

/-- A colour pair of the table CSS. -/
structure ThemeColors where
  dark : String
  light : String
deriving DecidableEq, Repr

namespace CSS

/-- The entry `CSS.day`. -/
def day : ThemeColors := ⟨"10, 10, 20", "255, 255, 255"⟩

/-- The entry `CSS.night`. -/
def night : ThemeColors := ⟨"255, 255, 255", "10, 10, 20"⟩

/-- The lookup `CSS[key]` at the two keys the script ever uses. -/
def entry (key : String) : Option ThemeColors :=
  if key = "day" then some day
  else if key = "night" then some night
  else none

end CSS

/-! ## Functions of the script -/

/-- The text `authors[author]` contributes to a template or a concatenation. -/
def authorText (e : Env) (author : String) : String :=
  match e.authors author with
  | some name => name
  | none => "undefined"

/-- Lines 64-81. -/
def createPreview (e : Env) (b : Book) : Preview :=
  { dataPreview := b.id, image := b.image, title := b.title, author := authorText e b.author }

/-- Lines 89-103: previews are collected in FRAGMENT, and appending the fragment
to the list moves its children there, leaving it empty. -/
def pageLoader (e : Env) (EXTRACTED : List Book) (s : State) : State :=
  let fragment := EXTRACTED.foldl (fun frag b => frag ++ [createPreview e b]) s.FRAGMENT
  { s with listItems := s.listItems ++ fragment, FRAGMENT := [] }

/-- The slice `MATCHES.slice(PAGE*BOOKS_PER_PAGE, (PAGE+1)*BOOKS_PER_PAGE)` of
lines 33, 187 and 283. -/
def extract (e : Env) (s : State) : List Book :=
  slice s.MATCHES (s.PAGE * e.BOOKS_PER_PAGE) ((s.PAGE + 1) * e.BOOKS_PER_PAGE)

/-- The subtraction of line 170. -/
def remainingMatches (e : Env) (s : State) : Int :=
  (s.MATCHES.length : Int) - (((s.PAGE + 1) * e.BOOKS_PER_PAGE : Nat) : Int)

/-- Lines 168-178. -/
def showMoreButton (e : Env) (s : State) : State :=
  let remainingMatches := remainingMatches e s
  let buttonTurnery : Int := if remainingMatches > 0 then remainingMatches else 0
  { s with buttonDisabled := decide (remainingMatches ≤ 0), buttonRemaining := buttonTurnery }

/-- Lines 185-190. -/
def handleShowMore (e : Env) (s : State) : State :=
  let s1 := { s with PAGE := s.PAGE + 1 }
  let extracted := extract e s1
  showMoreButton e (pageLoader e extracted s1)

/-- The comparison `select.value === window.matchMedia`: a string is strictly
equal only to a string of the same content. -/
def strictEqString (s : String) (v : JSValue) : Bool :=
  match v with
  | .string t => decide (s = t)
  | _ => false

/-- The value of the expression `window.matchMedia`. -/
def matchMediaValue (e : Env) : JSValue :=
  match e.matchMedia with
  | some _ => .function
  | none => .undefined

/-- Line 155: `a === b && c` parses as `(a === b) && c`; the right operand is
evaluated only when the left one is truthy. -/
def themeEvaluation (e : Env) (s : State) : Except String JSValue :=
  let left := strictEqString s.settingsTheme (matchMediaValue e)
  if left then
    match e.matchMedia with
    | some f => .ok ((f "(prefers-color-scheme: dark)").getProp "MATCHES")
    | none => .error "TypeError: window.matchMedia is not a function"
  else .ok (.boolean left)

/-- Lines 154-161. -/
def defaultTheme (e : Env) (s : State) : Except String State :=
  match themeEvaluation e s with
  | .error err => .error err
  | .ok v =>
    let themeValues := if v.truthy then "night" else "day"
    match CSS.entry themeValues with
    | none => .error "TypeError"
    | some colors =>
      .ok { s with colorDark := colors.dark, colorLight := colors.light, cssCurrent := themeValues }

/-- The inner loop of lines 206-213 for one node: the last book whose id is the
node's preview id becomes `active`. -/
def scanBooks (books : List Book) (previewId : Option String) (active : Option Book) :
    Option Book :=
  books.foldl (fun act singleBook => if some singleBook.id = previewId then some singleBook else act)
    active

/-- The outer loop of lines 206-213 over the event path, each node given by its
`dataset.preview` (none when the node carries none). -/
def findActive (books : List Book) : List (Option String) → Option Book → Option Book
  | [], active => active
  | previewId :: rest, active =>
    if active.isSome then active
    else findActive books rest (scanBooks books previewId active)

/-- Lines 198-224. -/
def handleDescriptionToggle (e : Env) (path : List (Option String)) (s : State) : State :=
  if s.listActiveOpen then { s with listActiveOpen := false }
  else
    match findActive e.books path none with
    | none => s
    | some active =>
      { s with
        listActiveOpen := true
        listBlur := active.image
        listImage := active.image
        listTitle := active.title
        listSubtitle := authorText e active.author ++ " " ++ e.fullYear active.published
        listDescription := active.description }

/-- Lines 231-242: `reset()` puts the form's fields back at their defaults. -/
def handleSearchToggle (e : Env) (s : State) : State :=
  if s.searchOpen then { s with searchOpen := false, searchForm := e.formDefaults }
  else { s with searchOpen := true, searchTitleFocused := true }

/-- The genre loop of lines 263-268. -/
def genreLoop (genre : String) : List String → Bool → Bool
  | [], genreMatch => genreMatch
  | singleGenre :: rest, genreMatch =>
    if genre = "any" then genreMatch
    else genreLoop genre rest (if singleGenre = genre then true else genreMatch)

/-- The body of the loop of lines 257-271 for one book. -/
def searchStep (e : Env) (filters : Filters) (result : List Book) (singleBook : Book) :
    List Book :=
  let titleMatch := decide (jsTrim filters.title = "")
    || includes (e.toLowerCase singleBook.title) (e.toLowerCase filters.title)
  let authorMatch := decide (filters.author = "any") || decide (singleBook.author = filters.author)
  let genreMatch := genreLoop filters.genre singleBook.genres (decide (filters.genre = "any"))
  if titleMatch && authorMatch && genreMatch then result ++ [singleBook] else result

/-- The array `result` after the loop of lines 255-271. -/
def searchResult (e : Env) (filters : Filters) : List Book :=
  e.books.foldl (searchStep e filters) []

/-- Lines 251-289; the submitted form is the search form of the page. -/
def handleSearchSubmit (e : Env) (s : State) : State :=
  let filters := s.searchForm
  let result := searchResult e filters
  let s1 :=
    if result.length < 1 then { s with listMessageShow := true, searchOpen := false }
    else { s with listMessageShow := false }
  let s2 := { s1 with MATCHES := result, PAGE := 0, listItems := [] }
  let extracted := extract e s2
  let s3 := showMoreButton e (pageLoader e extracted s2)
  { s3 with scrollTop := 0, searchOpen := false }

/-- Lines 295-304. -/
def handleThemeToggle (s : State) : State :=
  let current := s.settingsOpen
  if current then { s with settingsOpen := false, settingsTheme := s.cssCurrent }
  else { s with settingsOpen := true }

/-- Lines 312-334. -/
def handleThemeSubmit (e : Env) (s : State) : Except String State :=
  let userTheme := s.settingsTheme
  let switched : Except String State :=
    if userTheme = "day" then
      match CSS.entry userTheme with
      | none => .error "TypeError"
      | some colors =>
        .ok { s with colorDark := colors.dark, colorLight := colors.light, cssCurrent := userTheme }
    else if userTheme = "night" then
      match CSS.entry userTheme with
      | none => .error "TypeError"
      | some colors =>
        .ok { s with colorDark := colors.dark, colorLight := colors.light, cssCurrent := userTheme }
    else defaultTheme e s
  match switched with
  | .error err => .error err
  | .ok s1 => .ok { s1 with settingsOpen := false, settingsTheme := userTheme }

/-- Lines 18-33 and 338-342: the main execution over the page as the markup
leaves it (the two option lists of the search form are not part of the state). -/
def mainExecution (e : Env) (dom : State) : Except String State :=
  let s := { dom with MATCHES := e.books, PAGE := 0, FRAGMENT := [], cssCurrent := "" }
  let EXTRACTED := extract e s
  let s1 := pageLoader e EXTRACTED s
  match defaultTheme e s1 with
  | .error err => .error err
  | .ok s2 => .ok (showMoreButton e s2)

/-- The windows a reader sees from state `s` on: the current one, then one more for
every press of the show-more button (handleShowMore) while the remaining count
that showMoreButton displays is not 0.  The fuel bounds the number of presses;
none means it ran out before the count reached 0. -/
def windowsFrom (e : Env) : Nat → State → Option (List (List Book))
  | 0, _ => none
  | fuel + 1, s =>
    if (showMoreButton e s).buttonRemaining = 0 then some [extract e s]
    else (windowsFrom e fuel (handleShowMore e s)).map (fun ws => extract e s :: ws)

/-! ## The query predicates as the specification words them -/

/-- The specification's titleMatch: the trimmed title text is empty, or the
lower-cased title text occurs as a substring of the lower-cased book title. -/
def specTitleMatch (e : Env) (q : Filters) (b : Book) : Prop :=
  jsTrim q.title = "" ∨ (e.toLowerCase q.title).data <:+: (e.toLowerCase b.title).data

/-- The specification's authorMatch: the author is "any" or is the book's author id. -/
def specAuthorMatch (q : Filters) (b : Book) : Prop :=
  q.author = "any" ∨ q.author = b.author

/-- The specification's genreMatch: the genre is "any" or is one of the book's genre ids. -/
def specGenreMatch (q : Filters) (b : Book) : Prop :=
  q.genre = "any" ∨ q.genre ∈ b.genres

/-- The three predicates together. -/
def specMatch (e : Env) (q : Filters) (b : Book) : Prop :=
  specTitleMatch e q b ∧ specAuthorMatch q b ∧ specGenreMatch q b

/-- The test of line 270 on one book, as a boolean. -/
def keeps (e : Env) (filters : Filters) (singleBook : Book) : Bool :=
  (decide (jsTrim filters.title = "")
      || includes (e.toLowerCase singleBook.title) (e.toLowerCase filters.title))
    && (decide (filters.author = "any") || decide (singleBook.author = filters.author))
    && genreLoop filters.genre singleBook.genres (decide (filters.genre = "any"))

/-- ASCII lower-casing, with which `toLowerCase` agrees on ASCII strings; the
host used in the worked scenarios. -/
def asciiLower (s : String) : String := ⟨s.data.map Char.toLower⟩

/-! ## Sample data for the worked scenarios -/

/-- A catalog record titled "Dune Messiah". -/
def duneMessiah : Book :=
  { id := "b1", title := "Dune Messiah", author := "a1", image := "dune.jpg",
    description := "Second book of the Dune saga", published := "1969-10-15T00:00:00.000Z",
    genres := ["fiction", "classic"] }

/-- A catalog record titled "The Hobbit". -/
def theHobbit : Book :=
  { id := "b2", title := "The Hobbit", author := "a2", image := "hobbit.jpg",
    description := "There and back again", published := "1937-09-21T00:00:00.000Z",
    genres := ["fantasy"] }

/-- A host whose color scheme preference is dark, with the two sample books. -/
def sampleEnv : Env :=
  { BOOKS_PER_PAGE := 36
    authors := fun a => if a = "a1" then some "Frank Herbert" else
      if a = "a2" then some "J. R. R. Tolkien" else none
    books := [duneMessiah, theHobbit]
    toLowerCase := asciiLower
    matchMedia := some (fun q =>
      { matches_ := decide (q = "(prefers-color-scheme: dark)"), media := q })
    fullYear := fun d => String.mk (d.data.take 4)
    formDefaults := { title := "", author := "any", genre := "any" } }

/-- The page as the main execution leaves it on the sample host: every dialog
closed, both books listed, the day theme. -/
def sampleState : State :=
  { MATCHES := [duneMessiah, theHobbit], PAGE := 0, FRAGMENT := [], cssCurrent := "day",
    colorDark := "10, 10, 20", colorLight := "255, 255, 255",
    listItems := [createPreview sampleEnv duneMessiah, createPreview sampleEnv theHobbit],
    listMessageShow := false, buttonDisabled := true, buttonRemaining := 0,
    listActiveOpen := false, listBlur := "", listImage := "", listTitle := "",
    listSubtitle := "", listDescription := "", searchOpen := false,
    searchForm := { title := "", author := "any", genre := "any" },
    searchTitleFocused := false, settingsOpen := false, settingsTheme := "day",
    scrollTop := 0 }

/-- The sample page with the settings dialog open and night picked in it. -/
def nightPicked : State :=
  { sampleState with settingsOpen := true, settingsTheme := "night" }

/-! ## Strings and the search loop -/

theorem startsWithList_iff (s t : List Char) :
    startsWithList s t = true ↔ ∃ r, s = t ++ r := by
  induction t generalizing s with
  | nil => simp [startsWithList]
  | cons d t ih =>
    cases s with
    | nil => simp [startsWithList]
    | cons c s =>
      simp only [startsWithList, Bool.and_eq_true, decide_eq_true_eq, ih, List.cons_append,
        List.cons.injEq]
      constructor
      · rintro ⟨h, r, hr⟩
        exact ⟨r, h, hr⟩
      · rintro ⟨r, h, hr⟩
        exact ⟨h, r, hr⟩

theorem includesList_iff (s t : List Char) :
    includesList s t = true ↔ t <:+: s := by
  induction s with
  | nil =>
    simp only [includesList, startsWithList_iff]
    constructor
    · rintro ⟨r, hr⟩
      exact ⟨[], r, by simpa using hr.symm⟩
    · rintro ⟨a, r, hr⟩
      have h1 : a = [] := by
        cases a with
        | nil => rfl
        | cons x a => simp at hr
      subst h1
      exact ⟨r, by simpa using hr.symm⟩
  | cons c s ih =>
    simp only [includesList, Bool.or_eq_true, startsWithList_iff, ih]
    constructor
    · rintro (⟨r, hr⟩ | ⟨a, r, hr⟩)
      · exact ⟨[], r, by simpa using hr.symm⟩
      · exact ⟨c :: a, r, by simp [← hr]⟩
    · rintro ⟨a, r, hr⟩
      cases a with
      | nil => exact Or.inl ⟨r, by simpa using hr.symm⟩
      | cons x a =>
        simp only [List.cons_append, List.cons.injEq] at hr
        exact Or.inr ⟨a, r, by simpa using hr.2⟩

theorem genreLoop_of_true (genre : String) (genres : List String) :
    genreLoop genre genres true = true := by
  induction genres with
  | nil => rfl
  | cons g gs ih =>
    unfold genreLoop
    split
    · rfl
    · simpa using ih

theorem genreLoop_false (genre : String) (h : genre ≠ "any") (genres : List String) :
    genreLoop genre genres false = true ↔ genre ∈ genres := by
  induction genres with
  | nil => simp [genreLoop]
  | cons g gs ih =>
    unfold genreLoop
    rw [if_neg h]
    by_cases hg : g = genre
    · simp [hg, genreLoop_of_true]
    · have hg2 : ¬ genre = g := fun h2 => hg h2.symm
      simp [hg, hg2, ih]

theorem genreLoop_iff (q : Filters) (b : Book) :
    genreLoop q.genre b.genres (decide (q.genre = "any")) = true ↔ specGenreMatch q b := by
  unfold specGenreMatch
  by_cases h : q.genre = "any"
  · simp [h, genreLoop_of_true]
  · simp [h, genreLoop_false q.genre h]

theorem keeps_iff (e : Env) (q : Filters) (b : Book) :
    keeps e q b = true ↔ specMatch e q b := by
  unfold keeps specMatch specTitleMatch specAuthorMatch
  simp only [Bool.and_eq_true, Bool.or_eq_true, decide_eq_true_eq, includes, includesList_iff,
    genreLoop_iff]
  constructor
  · rintro ⟨⟨h1, h2⟩, h3⟩
    exact ⟨h1, h2.imp id Eq.symm, h3⟩
  · rintro ⟨h1, h2, h3⟩
    exact ⟨⟨h1, h2.imp id Eq.symm⟩, h3⟩

theorem searchStep_eq (e : Env) (q : Filters) (acc : List Book) (b : Book) :
    searchStep e q acc b = if keeps e q b then acc ++ [b] else acc := rfl

theorem foldl_searchStep (e : Env) (q : Filters) (bs acc : List Book) :
    bs.foldl (searchStep e q) acc = acc ++ bs.filter (keeps e q) := by
  induction bs generalizing acc with
  | nil => simp
  | cons b bs ih =>
    rw [List.foldl_cons, ih, searchStep_eq]
    by_cases h : keeps e q b = true
    · simp [h, List.filter_cons]
    · simp [h, List.filter_cons]

theorem searchResult_eq (e : Env) (q : Filters) :
    searchResult e q = e.books.filter (keeps e q) := by
  simp [searchResult, foldl_searchStep]

theorem handleSearchSubmit_MATCHES (e : Env) (s : State) :
    (handleSearchSubmit e s).MATCHES = searchResult e s.searchForm := by
  unfold handleSearchSubmit
  simp only [showMoreButton, pageLoader]

/-! ## Claims on the search submit -/

/-- C1: the match set built by handleSearchSubmit is a subsequence of the catalog in
the catalog's order, and every book in it satisfies titleMatch, authorMatch and
genreMatch as the specification words them. -/
theorem search_result_sound (e : Env) (s : State) :
    List.Sublist (handleSearchSubmit e s).MATCHES e.books ∧
    ∀ b ∈ (handleSearchSubmit e s).MATCHES,
      specTitleMatch e s.searchForm b ∧ specAuthorMatch s.searchForm b
        ∧ specGenreMatch s.searchForm b := by
  rw [handleSearchSubmit_MATCHES, searchResult_eq]
  refine ⟨List.filter_sublist _, ?_⟩
  intro b hb
  exact (keeps_iff e s.searchForm b).1 (List.mem_filter.1 hb).2

/-- C2: every catalog book that satisfies the three predicates is in the match set
built by handleSearchSubmit, which is the whole ordered subset of the catalog
selected by the query; and the query "dune" against a catalog of "Dune Messiah"
and "The Hobbit" gives exactly the "Dune Messiah" record. -/
theorem search_result_complete :
    (∀ (e : Env) (s : State) (b : Book), b ∈ e.books → specTitleMatch e s.searchForm b →
      specAuthorMatch s.searchForm b → specGenreMatch s.searchForm b →
      b ∈ (handleSearchSubmit e s).MATCHES) ∧
    (∀ (e : Env) (s : State) (l : List Book), List.Sublist l e.books →
      (∀ b ∈ l, specMatch e s.searchForm b) →
      List.Sublist l (handleSearchSubmit e s).MATCHES) ∧
    (∀ (e : Env) (s : State) (dune hobbit : Book),
      e.books = [dune, hobbit] → dune.title = "Dune Messiah" → hobbit.title = "The Hobbit" →
      e.toLowerCase "Dune Messiah" = "dune messiah" → e.toLowerCase "The Hobbit" = "the hobbit" →
      e.toLowerCase "dune" = "dune" →
      s.searchForm = { title := "dune", author := "any", genre := "any" } →
      (handleSearchSubmit e s).MATCHES = [dune]) := by
  refine ⟨?_, ?_, ?_⟩
  · intro e s b hb h1 h2 h3
    rw [handleSearchSubmit_MATCHES, searchResult_eq]
    exact List.mem_filter.2 ⟨hb, (keeps_iff e s.searchForm b).2 ⟨h1, h2, h3⟩⟩
  · intro e s l hl hall
    rw [handleSearchSubmit_MATCHES, searchResult_eq]
    have h1 : l.filter (keeps e s.searchForm) = l :=
      List.filter_eq_self.2 (fun b hb => (keeps_iff e s.searchForm b).2 (hall b hb))
    rw [← h1]
    exact List.Sublist.filter _ hl
  · intro e s dune hobbit hbooks hd hh l1 l2 l3 hq
    rw [handleSearchSubmit_MATCHES, searchResult_eq, hbooks, hq]
    have k1 : keeps e { title := "dune", author := "any", genre := "any" } dune = true := by
      have i1 : includes "dune messiah" "dune" = true := by decide
      simp [keeps, hd, l1, l3, i1, genreLoop_of_true]
    have k2 : keeps e { title := "dune", author := "any", genre := "any" } hobbit = false := by
      have i1 : includes "the hobbit" "dune" = false := by decide
      have i2 : decide (jsTrim "dune" = "") = false := by decide
      simp only [keeps, hh, l2, l3, i1, i2]
      rfl
    simp [List.filter_cons, k1, k2]

/-! ## Pagination -/

theorem foldl_createPreview (e : Env) (bs : List Book) (frag : List Preview) :
    bs.foldl (fun frag b => frag ++ [createPreview e b]) frag
      = frag ++ bs.map (createPreview e) := by
  induction bs generalizing frag with
  | nil => simp
  | cons b bs ih => simp [ih]

theorem showMoreButton_remaining (e : Env) (s : State) :
    (showMoreButton e s).buttonRemaining
      = max 0 ((s.MATCHES.length : Int) - (((s.PAGE + 1) * e.BOOKS_PER_PAGE : Nat) : Int)) := by
  simp only [showMoreButton, remainingMatches]
  split
  · rw [max_eq_right]; omega
  · rw [max_eq_left]; omega

theorem showMoreButton_zero_iff (e : Env) (s : State) :
    (showMoreButton e s).buttonRemaining = 0
      ↔ s.MATCHES.length ≤ (s.PAGE + 1) * e.BOOKS_PER_PAGE := by
  simp only [showMoreButton, remainingMatches]
  split <;> omega

theorem handleShowMore_MATCHES (e : Env) (s : State) :
    (handleShowMore e s).MATCHES = s.MATCHES := rfl

theorem handleShowMore_PAGE (e : Env) (s : State) :
    (handleShowMore e s).PAGE = s.PAGE + 1 := rfl

theorem extract_eq (e : Env) (s : State) :
    extract e s = (s.MATCHES.drop (s.PAGE * e.BOOKS_PER_PAGE)).take e.BOOKS_PER_PAGE := by
  simp only [extract, slice]
  congr 1
  rw [Nat.add_mul, Nat.one_mul, Nat.add_sub_cancel_left]

theorem windowsFrom_spec (e : Env) (hB : 0 < e.BOOKS_PER_PAGE) :
    ∀ (fuel : Nat) (s : State), 0 < fuel →
      s.MATCHES.length ≤ (s.PAGE + fuel) * e.BOOKS_PER_PAGE →
      ∃ ws, windowsFrom e fuel s = some ws
        ∧ ws.flatten = s.MATCHES.drop (s.PAGE * e.BOOKS_PER_PAGE)
        ∧ ∀ w ∈ ws, w.length ≤ e.BOOKS_PER_PAGE := by
  intro fuel
  induction fuel with
  | zero => intro s h; omega
  | succ fuel ih =>
    intro s _ hlen
    unfold windowsFrom
    by_cases hz : (showMoreButton e s).buttonRemaining = 0
    · rw [if_pos hz]
      refine ⟨[extract e s], rfl, ?_, ?_⟩
      · rw [showMoreButton_zero_iff] at hz
        simp only [List.flatten_cons, List.flatten_nil, List.append_nil, extract_eq]
        apply List.take_of_length_le
        rw [List.length_drop]
        have : (s.PAGE + 1) * e.BOOKS_PER_PAGE = s.PAGE * e.BOOKS_PER_PAGE + e.BOOKS_PER_PAGE := by
          ring
        omega
      · intro w hw
        simp only [List.mem_singleton] at hw
        subst hw
        rw [extract_eq, List.length_take]
        exact Nat.min_le_left _ _
    · rw [if_neg hz]
      rw [showMoreButton_zero_iff] at hz
      have hfuel : 0 < fuel := by
        rcases Nat.eq_zero_or_pos fuel with h0 | h0
        · subst h0
          exact absurd hlen hz
        · exact h0
      have hlen2 : (handleShowMore e s).MATCHES.length
          ≤ ((handleShowMore e s).PAGE + fuel) * e.BOOKS_PER_PAGE := by
        rw [handleShowMore_MATCHES, handleShowMore_PAGE]
        have : s.PAGE + 1 + fuel = s.PAGE + (fuel + 1) := by omega
        rw [this]
        exact hlen
      obtain ⟨ws, hws, hjoin, hall⟩ := ih (handleShowMore e s) hfuel hlen2
      refine ⟨extract e s :: ws, by rw [hws]; rfl, ?_, ?_⟩
      · rw [List.flatten_cons, hjoin, handleShowMore_MATCHES, handleShowMore_PAGE, extract_eq]
        have h1 : (s.PAGE + 1) * e.BOOKS_PER_PAGE
            = s.PAGE * e.BOOKS_PER_PAGE + e.BOOKS_PER_PAGE := by ring
        rw [h1, ← List.drop_drop]
        exact List.take_append_drop _ _
      · intro w hw
        rcases List.mem_cons.1 hw with h1 | h1
        · subst h1
          rw [extract_eq, List.length_take]
          exact Nat.min_le_left _ _
        · exact hall w h1

/-- C3: for a positive page size, from page index 0 the windows taken by repeated
handleShowMore until the remaining count is 0 are finitely many and their
concatenation, in order, is the match set itself: nothing twice, nothing missing. -/
theorem windows_cover_matches (e : Env) (s : State) (fuel : Nat)
    (hB : 0 < e.BOOKS_PER_PAGE) (hP : s.PAGE = 0) (hfuel : s.MATCHES.length < fuel) :
    ∃ ws, windowsFrom e fuel s = some ws ∧ ws.flatten = s.MATCHES
      ∧ ∀ w ∈ ws, w.length ≤ e.BOOKS_PER_PAGE := by
  have hlen : s.MATCHES.length ≤ (s.PAGE + fuel) * e.BOOKS_PER_PAGE := by
    rw [hP, Nat.zero_add]
    calc s.MATCHES.length ≤ fuel * 1 := by omega
      _ ≤ fuel * e.BOOKS_PER_PAGE := Nat.mul_le_mul_left _ hB
  obtain ⟨ws, h1, h2, h3⟩ := windowsFrom_spec e hB fuel s (by omega) hlen
  refine ⟨ws, h1, ?_, h3⟩
  rw [h2, hP]
  simp

/-- C4: the count showMoreButton displays is max(0, |MATCHES| - (PAGE+1)*BOOKS_PER_PAGE);
it is never negative; it is 0 exactly when the current window reaches the end of
the match set; the button is disabled exactly when the count is 0; and with 40
books and page size 36 the first window holds 36 books with 4 remaining, the
window after one handleShowMore holds 4 books with 0 remaining. -/
theorem remaining_count :
    (∀ (e : Env) (s : State),
      (showMoreButton e s).buttonRemaining
        = max 0 ((s.MATCHES.length : Int) - (((s.PAGE + 1) * e.BOOKS_PER_PAGE : Nat) : Int))
      ∧ 0 ≤ (showMoreButton e s).buttonRemaining
      ∧ ((showMoreButton e s).buttonRemaining = 0
          ↔ s.MATCHES.drop ((s.PAGE + 1) * e.BOOKS_PER_PAGE) = [])
      ∧ ((showMoreButton e s).buttonRemaining = 0
          ↔ s.MATCHES.length ≤ (s.PAGE + 1) * e.BOOKS_PER_PAGE)
      ∧ ((showMoreButton e s).buttonDisabled = true
          ↔ (showMoreButton e s).buttonRemaining = 0)) ∧
    (∀ (e : Env) (s : State), s.MATCHES.length = 40 → e.BOOKS_PER_PAGE = 36 → s.PAGE = 0 →
      (extract e s).length = 36 ∧ (showMoreButton e s).buttonRemaining = 4
      ∧ (extract e (handleShowMore e s)).length = 4
      ∧ (handleShowMore e s).buttonRemaining = 0) := by
  refine ⟨?_, ?_⟩
  · intro e s
    refine ⟨showMoreButton_remaining e s, ?_, ?_, showMoreButton_zero_iff e s, ?_⟩
    · rw [showMoreButton_remaining]
      exact le_max_left _ _
    · rw [showMoreButton_zero_iff, List.drop_eq_nil_iff]
    · simp only [showMoreButton, remainingMatches, decide_eq_true_eq]
      split <;> omega
  · intro e s hlen hB hP
    have h2 : (handleShowMore e s).buttonRemaining
        = (showMoreButton e (handleShowMore e s)).buttonRemaining := rfl
    rw [h2, showMoreButton_remaining, showMoreButton_remaining, extract_eq, extract_eq,
      handleShowMore_MATCHES, handleShowMore_PAGE, List.length_take, List.length_take,
      List.length_drop, List.length_drop, hlen, hB, hP]
    refine ⟨by decide, by decide, by decide, by decide⟩

/-! ## The state after a search submit -/

theorem themeEvaluation_false (e : Env) (s : State) :
    themeEvaluation e s = .ok (.boolean false) := by
  unfold themeEvaluation matchMediaValue
  cases e.matchMedia <;> simp [strictEqString]

theorem defaultTheme_day (e : Env) (s : State) :
    defaultTheme e s
      = .ok { s with colorDark := "10, 10, 20", colorLight := "255, 255, 255",
                     cssCurrent := "day" } := by
  unfold defaultTheme
  rw [themeEvaluation_false]
  rfl

theorem handleSearchSubmit_fields (e : Env) (s : State) :
    (handleSearchSubmit e s).PAGE = 0
    ∧ (handleSearchSubmit e s).searchOpen = false
    ∧ (handleSearchSubmit e s).listMessageShow
        = decide ((searchResult e s.searchForm).length < 1)
    ∧ (handleSearchSubmit e s).listItems
        = s.FRAGMENT ++ (extract e (handleSearchSubmit e s)).map (createPreview e)
    ∧ (handleSearchSubmit e s).FRAGMENT = [] := by
  unfold handleSearchSubmit
  simp only [showMoreButton, pageLoader, foldl_createPreview, extract, List.nil_append]
  by_cases h : (searchResult e s.searchForm).length < 1
  · simp [h]
  · simp [h]

/-! ## The document fragment is empty between handlers -/

theorem handleShowMore_listItems (e : Env) (s : State) (hF : s.FRAGMENT = []) :
    (handleShowMore e s).listItems
        = s.listItems ++ (extract e (handleShowMore e s)).map (createPreview e)
    ∧ (handleShowMore e s).FRAGMENT = [] := by
  simp [handleShowMore, showMoreButton, pageLoader, foldl_createPreview, extract, hF]

theorem mainExecution_loaded (e : Env) (dom : State) (hdom : dom.listItems = []) :
    ∃ s, mainExecution e dom = .ok s ∧ s.FRAGMENT = [] ∧ s.MATCHES = e.books ∧ s.PAGE = 0
      ∧ s.listItems = (slice e.books 0 e.BOOKS_PER_PAGE).map (createPreview e)
      ∧ s.cssCurrent = "day" := by
  unfold mainExecution
  simp only [defaultTheme_day]
  refine ⟨_, rfl, ?_⟩
  simp [showMoreButton, pageLoader, foldl_createPreview, extract, hdom]

theorem fragment_stays_empty (e : Env) (path : List (Option String)) (s : State)
    (hF : s.FRAGMENT = []) :
    (handleShowMore e s).FRAGMENT = []
    ∧ (handleDescriptionToggle e path s).FRAGMENT = []
    ∧ (handleSearchToggle e s).FRAGMENT = []
    ∧ (handleSearchSubmit e s).FRAGMENT = []
    ∧ (handleThemeToggle s).FRAGMENT = []
    ∧ ∀ s1, handleThemeSubmit e s = .ok s1 → s1.FRAGMENT = [] := by
  refine ⟨(handleShowMore_listItems e s hF).2, ?_, ?_, (handleSearchSubmit_fields e s).2.2.2.2,
    ?_, ?_⟩
  · unfold handleDescriptionToggle
    split
    · exact hF
    · split <;> exact hF
  · unfold handleSearchToggle
    split <;> exact hF
  · unfold handleThemeToggle
    simp only
    split <;> exact hF
  · intro s1 h1
    unfold handleThemeSubmit at h1
    by_cases hd : s.settingsTheme = "day"
    · simp only [hd, CSS.entry, if_true, Except.ok.injEq] at h1
      rw [← h1]
      exact hF
    · by_cases hn : s.settingsTheme = "night"
      · simp only [hn, CSS.entry, if_true, Except.ok.injEq] at h1
        have h2 : ¬ ("night" = "day") := by decide
        simp only [h2, if_false, Except.ok.injEq] at h1
        rw [← h1]
        exact hF
      · simp only [hd, hn, if_false, defaultTheme_day, Except.ok.injEq] at h1
        rw [← h1]
        exact hF

/-- C10: after handleSearchSubmit, from any prior state whose document fragment is
empty (as every handler leaves it), the match set is the query's result, the page
index is 0, the rendered list is exactly window 0 of the new match set, the search
dialog is closed, and the empty-state indicator is shown exactly when the new match
set is empty; a genre that no catalog book carries gives an empty match set with
the indicator shown. -/
theorem search_submit_resets :
    (∀ (e : Env) (s : State), s.FRAGMENT = [] →
      (handleSearchSubmit e s).MATCHES = searchResult e s.searchForm
      ∧ (∀ b, b ∈ (handleSearchSubmit e s).MATCHES ↔ b ∈ e.books ∧ specMatch e s.searchForm b)
      ∧ (handleSearchSubmit e s).PAGE = 0
      ∧ (handleSearchSubmit e s).listItems
          = (slice (handleSearchSubmit e s).MATCHES 0 e.BOOKS_PER_PAGE).map (createPreview e)
      ∧ (handleSearchSubmit e s).searchOpen = false
      ∧ ((handleSearchSubmit e s).listMessageShow = true ↔ (handleSearchSubmit e s).MATCHES = [])
      ∧ (handleSearchSubmit e s).buttonRemaining
          = max 0 (((handleSearchSubmit e s).MATCHES.length : Int) - (e.BOOKS_PER_PAGE : Int))) ∧
    (∀ (e : Env) (s : State), s.FRAGMENT = [] → s.searchForm.genre = "scifi" →
      (∀ b ∈ e.books, "scifi" ∉ b.genres) →
      (handleSearchSubmit e s).MATCHES = [] ∧ (handleSearchSubmit e s).listMessageShow = true) := by
  have main : ∀ (e : Env) (s : State), s.FRAGMENT = [] →
      (handleSearchSubmit e s).listItems
          = (slice (handleSearchSubmit e s).MATCHES 0 e.BOOKS_PER_PAGE).map (createPreview e)
      ∧ ((handleSearchSubmit e s).listMessageShow = true
          ↔ (handleSearchSubmit e s).MATCHES = []) := by
    intro e s hF
    obtain ⟨h1, _, h3, h4, _⟩ := handleSearchSubmit_fields e s
    refine ⟨?_, ?_⟩
    · rw [h4, hF, List.nil_append, extract, h1]
      simp
    · rw [h3, handleSearchSubmit_MATCHES, decide_eq_true_eq, Nat.lt_one_iff,
        List.length_eq_zero]
  refine ⟨?_, ?_⟩
  · intro e s hF
    obtain ⟨h1, h2, _, _, _⟩ := handleSearchSubmit_fields e s
    refine ⟨handleSearchSubmit_MATCHES e s, ?_, h1, (main e s hF).1, h2, (main e s hF).2, ?_⟩
    · intro b
      rw [handleSearchSubmit_MATCHES, searchResult_eq, List.mem_filter, keeps_iff]
    · have h5 : (handleSearchSubmit e s).buttonRemaining
          = (showMoreButton e (handleSearchSubmit e s)).buttonRemaining := by
        unfold handleSearchSubmit
        simp only [showMoreButton, remainingMatches, pageLoader]
      rw [h5, showMoreButton_remaining, h1]
      simp
  · intro e s hF hg hno
    have hempty : (handleSearchSubmit e s).MATCHES = [] := by
      rw [handleSearchSubmit_MATCHES, searchResult_eq, List.filter_eq_nil_iff]
      intro b hb hk
      rw [keeps_iff] at hk
      rcases hk.2.2 with h | h
      · rw [hg] at h
        exact absurd h (by decide)
      · rw [hg] at h
        exact hno b hb h
    exact ⟨hempty, ((main e s hF).2).2 hempty⟩

/-- The witness of C1: on the sample host the query "dune" keeps "Dune Messiah",
which satisfies the three predicates. -/
theorem search_result_sound_witness :
    specTitleMatch sampleEnv { title := "dune", author := "any", genre := "any" } duneMessiah
    ∧ specAuthorMatch { title := "dune", author := "any", genre := "any" } duneMessiah
    ∧ specGenreMatch { title := "dune", author := "any", genre := "any" } duneMessiah :=
  (search_result_sound sampleEnv
    { sampleState with searchForm := { title := "dune", author := "any", genre := "any" } }).2
    duneMessiah (by decide)

/-- The witness of C2: on the sample host the query "dune" returns the single
"Dune Messiah" record. -/
theorem search_result_complete_witness :
    (handleSearchSubmit sampleEnv
      { sampleState with searchForm := { title := "dune", author := "any", genre := "any" } }).MATCHES
      = [duneMessiah] :=
  search_result_complete.2.2 sampleEnv _ duneMessiah theHobbit rfl rfl rfl
    (by decide) (by decide) (by decide) rfl

/-- The witness of C3: forty books at thirty-six a page. -/
theorem windows_cover_matches_witness :
    ∃ ws, windowsFrom sampleEnv 41 { sampleState with MATCHES := List.replicate 40 theHobbit }
        = some ws
      ∧ ws.flatten = List.replicate 40 theHobbit
      ∧ ∀ w ∈ ws, w.length ≤ 36 :=
  windows_cover_matches sampleEnv { sampleState with MATCHES := List.replicate 40 theHobbit } 41
    (by decide) rfl (by simp)

/-- The witness of C4: forty books at thirty-six a page. -/
theorem remaining_count_witness :
    (extract sampleEnv { sampleState with MATCHES := List.replicate 40 theHobbit }).length = 36
    ∧ (showMoreButton sampleEnv
        { sampleState with MATCHES := List.replicate 40 theHobbit }).buttonRemaining = 4
    ∧ (extract sampleEnv (handleShowMore sampleEnv
        { sampleState with MATCHES := List.replicate 40 theHobbit })).length = 4
    ∧ (handleShowMore sampleEnv
        { sampleState with MATCHES := List.replicate 40 theHobbit }).buttonRemaining = 0 :=
  remaining_count.2 sampleEnv { sampleState with MATCHES := List.replicate 40 theHobbit }
    (by simp) rfl rfl

/-- The witness of C10: no sample book carries the genre "scifi". -/
theorem search_submit_resets_witness :
    (handleSearchSubmit sampleEnv
      { sampleState with searchForm := { title := "", author := "any", genre := "scifi" } }).MATCHES
      = []
    ∧ (handleSearchSubmit sampleEnv
      { sampleState with
        searchForm := { title := "", author := "any", genre := "scifi" } }).listMessageShow
      = true :=
  search_submit_resets.2 sampleEnv
    { sampleState with searchForm := { title := "", author := "any", genre := "scifi" } }
    rfl rfl (by decide)

/-! ## Startup validation -/

theorem validation_error_iff (books : JSValue) :
    (∃ msg, validation books = .error msg) ↔ books.truthy = false := by
  cases books with
  | boolean b => cases b <;> simp [validation, JSValue.truthy, JSValue.isArray]
  | number n =>
    by_cases h : n = 0 <;> simp [validation, JSValue.truthy, JSValue.isArray, h]
  | string t =>
    by_cases h : t = "" <;> simp [validation, JSValue.truthy, JSValue.isArray, h]
  | _ => simp [validation, JSValue.truthy, JSValue.isArray, lengthLessThanTwo]

/-- C5: what the validation of lines 9-10 does on the import `books`: it throws for
undefined and for null, and it returns normally for an empty array, for a
non-array object and for every array, empty or not. -/
theorem validation_cases :
    validation .undefined = .error "Source required"
    ∧ validation .null = .error "Source required"
    ∧ validation (.array []) = .ok ()
    ∧ validation .object = .ok ()
    ∧ ∀ items : List Book, validation (.array items) = .ok () := by
  refine ⟨rfl, rfl, rfl, rfl, ?_⟩
  intro items
  rfl

/-! ## Themes -/

/-- C6: defaultTheme sets the theme state CSS.current to "day" with the day colours
in every environment, also on the sample host, whose media query
(prefers-color-scheme: dark) matches. -/
theorem defaultTheme_ignores_preference :
    (∀ (e : Env) (s : State),
      defaultTheme e s
        = .ok { s with colorDark := "10, 10, 20", colorLight := "255, 255, 255",
                       cssCurrent := "day" }) ∧
    (sampleEnv.matchMedia.map (fun f => (f "(prefers-color-scheme: dark)").matches_) = some true
      ∧ (defaultTheme sampleEnv sampleState).toOption.map State.cssCurrent = some "day") := by
  refine ⟨defaultTheme_day, by decide, ?_⟩
  rw [defaultTheme_day]
  rfl

/-- C7: submitting the theme t, day or night, through handleThemeSubmit sets the two
colours to the static pair of t, sets CSS.current to t, closes the settings dialog,
leaves the selection at t and changes nothing else; CSS.current names the pair
last emitted, and the night pair is the day pair with dark and light swapped. -/
theorem theme_submit (e : Env) (s : State) (t : String)
    (ht : t = "day" ∨ t = "night") (hs : s.settingsTheme = t) :
    ∃ s1, handleThemeSubmit e s = .ok s1
      ∧ s1 = { s with colorDark := s1.colorDark, colorLight := s1.colorLight, cssCurrent := t,
                      settingsOpen := false, settingsTheme := t }
      ∧ (t = "day" → s1.colorDark = "10, 10, 20" ∧ s1.colorLight = "255, 255, 255")
      ∧ (t = "night" → s1.colorDark = "255, 255, 255" ∧ s1.colorLight = "10, 10, 20")
      ∧ s1.cssCurrent = t ∧ s1.settingsOpen = false ∧ s1.settingsTheme = t
      ∧ CSS.entry s1.cssCurrent = some { dark := s1.colorDark, light := s1.colorLight }
      ∧ CSS.night.dark = CSS.day.light ∧ CSS.night.light = CSS.day.dark := by
  rcases ht with h | h
  · subst h
    refine ⟨{ s with colorDark := "10, 10, 20", colorLight := "255, 255, 255",
                     cssCurrent := "day", settingsOpen := false, settingsTheme := "day" },
      ?_, rfl, fun _ => ⟨rfl, rfl⟩, fun h => absurd h (by decide), rfl, rfl, rfl, rfl, rfl, rfl⟩
    unfold handleThemeSubmit
    simp only [hs]
    rfl
  · subst h
    refine ⟨{ s with colorDark := "255, 255, 255", colorLight := "10, 10, 20",
                     cssCurrent := "night", settingsOpen := false, settingsTheme := "night" },
      ?_, rfl, fun h => absurd h (by decide), fun _ => ⟨rfl, rfl⟩, rfl, rfl, rfl, rfl, rfl, rfl⟩
    unfold handleThemeSubmit
    simp only [hs]
    rfl

/-- The witness of C7: night submitted on the sample page. -/
theorem theme_submit_witness :
    ∃ s1, handleThemeSubmit sampleEnv nightPicked = .ok s1
      ∧ s1 = { nightPicked with
                colorDark := s1.colorDark
                colorLight := s1.colorLight
                cssCurrent := "night"
                settingsOpen := false
                settingsTheme := "night" }
      ∧ ("night" = "day" → s1.colorDark = "10, 10, 20" ∧ s1.colorLight = "255, 255, 255")
      ∧ ("night" = "night" → s1.colorDark = "255, 255, 255" ∧ s1.colorLight = "10, 10, 20")
      ∧ s1.cssCurrent = "night" ∧ s1.settingsOpen = false ∧ s1.settingsTheme = "night"
      ∧ CSS.entry s1.cssCurrent = some { dark := s1.colorDark, light := s1.colorLight }
      ∧ CSS.night.dark = CSS.day.light ∧ CSS.night.light = CSS.day.dark :=
  theme_submit sampleEnv nightPicked "night" (Or.inr rfl) rfl

/-! ## The description dialog -/

theorem scanBooks_no_match (books : List Book) (previewId : Option String)
    (active : Option Book) (h : ∀ b ∈ books, previewId ≠ some b.id) :
    scanBooks books previewId active = active := by
  unfold scanBooks
  induction books generalizing active with
  | nil => rfl
  | cons c cs ih =>
    have hc : ¬ some c.id = previewId := fun h2 => h c (List.mem_cons_self _ _) h2.symm
    rw [List.foldl_cons, if_neg hc]
    exact ih active (fun b hb => h b (List.mem_cons_of_mem _ hb))

theorem scanBooks_unique (books : List Book) (b : Book) (active : Option Book)
    (hnodup : (books.map Book.id).Nodup) (hb : b ∈ books) :
    scanBooks books (some b.id) active = some b := by
  induction books generalizing active with
  | nil => simp at hb
  | cons c cs ih =>
    rw [List.map_cons, List.nodup_cons] at hnodup
    have hstep : scanBooks (c :: cs) (some b.id) active
        = scanBooks cs (some b.id) (if some c.id = some b.id then some c else active) := rfl
    rw [hstep]
    rcases List.mem_cons.1 hb with h | h
    · subst h
      rw [if_pos rfl]
      apply scanBooks_no_match
      intro d hd heq
      apply hnodup.1
      rw [Option.some.injEq] at heq
      rw [heq]
      exact List.mem_map_of_mem _ hd
    · exact ih _ hnodup.2 h

theorem findActive_some (books : List Book) (path : List (Option String)) (a : Book) :
    findActive books path (some a) = some a := by
  cases path <;> simp [findActive]

theorem findActive_no_match (books : List Book) (pre rest : List (Option String))
    (h : ∀ previewId ∈ pre, ∀ b ∈ books, previewId ≠ some b.id) :
    findActive books (pre ++ rest) none = findActive books rest none := by
  induction pre with
  | nil => rfl
  | cons p ps ih =>
    rw [List.cons_append, findActive]
    simp only [Option.isSome_none, Bool.false_eq_true, if_false]
    rw [scanBooks_no_match books p none (h p (List.mem_cons_self _ _))]
    exact ih (fun q hq => h q (List.mem_cons_of_mem _ hq))

/-- C8: handleDescriptionToggle closes an open description dialog whatever the event
holds; with the dialog closed and no id on the path naming a catalog book it
changes nothing; with the dialog closed, unique book ids and some id on the path
naming a catalog book, it opens the dialog on the book named by the first such
id, showing its title, image and description. -/
theorem description_toggle :
    (∀ (e : Env) (path : List (Option String)) (s : State), s.listActiveOpen = true →
      handleDescriptionToggle e path s = { s with listActiveOpen := false }) ∧
    (∀ (e : Env) (path : List (Option String)) (s : State), s.listActiveOpen = false →
      (∀ previewId ∈ path, ∀ b ∈ e.books, previewId ≠ some b.id) →
      handleDescriptionToggle e path s = s) ∧
    (∀ (e : Env) (pre post : List (Option String)) (b : Book) (s : State),
      (e.books.map Book.id).Nodup → s.listActiveOpen = false → b ∈ e.books →
      (∀ previewId ∈ pre, ∀ c ∈ e.books, previewId ≠ some c.id) →
      handleDescriptionToggle e (pre ++ some b.id :: post) s
        = { s with
            listActiveOpen := true
            listBlur := b.image
            listImage := b.image
            listTitle := b.title
            listSubtitle := authorText e b.author ++ " " ++ e.fullYear b.published
            listDescription := b.description }) := by
  refine ⟨?_, ?_, ?_⟩
  · intro e path s h
    simp [handleDescriptionToggle, h]
  · intro e path s h hno
    have h1 : findActive e.books path none = none := by
      have := findActive_no_match e.books path [] hno
      rw [List.append_nil] at this
      rw [this]
      rfl
    simp [handleDescriptionToggle, h, h1]
  · intro e pre post b s hnodup h hb hno
    have h1 : findActive e.books (pre ++ some b.id :: post) none = some b := by
      rw [findActive_no_match e.books pre _ hno, findActive]
      simp only [Option.isSome_none, Bool.false_eq_true, if_false]
      rw [scanBooks_unique e.books b none hnodup hb, findActive_some]
    simp [handleDescriptionToggle, h, h1]

/-- The witness of C8: a click inside the preview of "The Hobbit" on the sample page. -/
theorem description_toggle_witness :
    handleDescriptionToggle sampleEnv ([none, some "nothing"] ++ some theHobbit.id :: [none])
        sampleState
      = { sampleState with
          listActiveOpen := true
          listBlur := "hobbit.jpg"
          listImage := "hobbit.jpg"
          listTitle := "The Hobbit"
          listSubtitle := "J. R. R. Tolkien 1937"
          listDescription := "There and back again" } :=
  description_toggle.2.2 sampleEnv [none, some "nothing"] [none] theHobbit sampleState
    (by decide) rfl (by decide) (by decide)

/-! ## Open then cancel -/

/-- C9: from a state with the dialog closed, opening then cancelling (two calls of
handleThemeToggle, or of handleSearchToggle, with any edit of the displayed inputs
in between) closes the dialog again and leaves the match set, the page index and
CSS.current as they were; the settings selection then shows CSS.current, the
search form holds its reset values, and no other cell changes except that the
search title input has been focused. -/
theorem open_then_cancel :
    (∀ (s : State) (picked : String), s.settingsOpen = false →
      handleThemeToggle { handleThemeToggle s with settingsTheme := picked }
          = { s with settingsTheme := s.cssCurrent }
      ∧ (handleThemeToggle s).settingsOpen = true
      ∧ (handleThemeToggle { handleThemeToggle s with settingsTheme := picked }).settingsOpen
          = false
      ∧ (handleThemeToggle { handleThemeToggle s with settingsTheme := picked }).settingsTheme
          = s.cssCurrent
      ∧ (handleThemeToggle { handleThemeToggle s with settingsTheme := picked }).cssCurrent
          = s.cssCurrent
      ∧ (handleThemeToggle { handleThemeToggle s with settingsTheme := picked }).MATCHES
          = s.MATCHES
      ∧ (handleThemeToggle { handleThemeToggle s with settingsTheme := picked }).PAGE
          = s.PAGE) ∧
    (∀ (e : Env) (s : State) (typed : Filters), s.searchOpen = false →
      handleSearchToggle e { handleSearchToggle e s with searchForm := typed }
          = { s with searchForm := e.formDefaults, searchTitleFocused := true }
      ∧ (handleSearchToggle e s).searchOpen = true
      ∧ (handleSearchToggle e { handleSearchToggle e s with searchForm := typed }).searchOpen
          = false
      ∧ (handleSearchToggle e { handleSearchToggle e s with searchForm := typed }).searchForm
          = e.formDefaults
      ∧ (handleSearchToggle e { handleSearchToggle e s with searchForm := typed }).cssCurrent
          = s.cssCurrent
      ∧ (handleSearchToggle e { handleSearchToggle e s with searchForm := typed }).MATCHES
          = s.MATCHES
      ∧ (handleSearchToggle e { handleSearchToggle e s with searchForm := typed }).PAGE
          = s.PAGE
      ∧ (handleSearchToggle e { handleSearchToggle e s with searchForm := typed }).listItems
          = s.listItems) := by
  refine ⟨?_, ?_⟩
  · intro s picked h
    have h1 : handleThemeToggle { handleThemeToggle s with settingsTheme := picked }
        = { s with settingsTheme := s.cssCurrent } := by
      cases s
      simp only at h
      subst h
      rfl
    refine ⟨h1, ?_, ?_, ?_, ?_, ?_, ?_⟩
    · simp [handleThemeToggle, h]
    · rw [h1]; exact h
    · rw [h1]
    · rw [h1]
    · rw [h1]
    · rw [h1]
  · intro e s typed h
    have h1 : handleSearchToggle e { handleSearchToggle e s with searchForm := typed }
        = { s with searchForm := e.formDefaults, searchTitleFocused := true } := by
      cases s
      simp only at h
      subst h
      rfl
    refine ⟨h1, ?_, ?_, ?_, ?_, ?_, ?_, ?_⟩
    · simp [handleSearchToggle, h]
    · rw [h1]; exact h
    · rw [h1]
    · rw [h1]
    · rw [h1]
    · rw [h1]
    · rw [h1]

/-- The witness of C9: the search dialog of the sample page opened, typed into and
cancelled. -/
theorem open_then_cancel_witness :
    handleSearchToggle sampleEnv
        { handleSearchToggle sampleEnv sampleState with
          searchForm := { title := "dune", author := "a1", genre := "classic" } }
      = { sampleState with searchTitleFocused := true } :=
  (open_then_cancel.2 sampleEnv sampleState
    { title := "dune", author := "a1", genre := "classic" } rfl).1

end BookConnect
